import Mathlib

/-!
Verification of the billboard client (`src/static/script.js`).

The file shallowly embeds the pure core of the `BillboardAI` class:
the persistence adapter (`loadSettings`), validation (`validateFiles`),
the per-entry analysis lifecycle (`analyzeImage`, `addToHistory`), and
the history aggregators (`updateStats`, `filterHistory`, `exportToCSV`).
DOM rendering, toasts and timers are out of scope; the DOM facts the
lifecycle depends on (whether an entry's gallery element exists) are
carried explicitly in the application state.  JS `Math.random()` draws
and `Date` reads are passed in as parameters of the transition.
-/

/-! ## Settings and the persistence adapter -/

/-- The settings singleton (constructor of `BillboardAI`):
`{theme:'light', notifications:true, maxFileSize:10, autoAnalyze:false}`. -/
structure Settings where
  theme : String
  notifications : Bool
  maxFileSize : Nat
  autoAnalyze : Bool
deriving DecidableEq, Repr

/-- Defaults set in the `BillboardAI` constructor. -/
def defaultSettings : Settings :=
  { theme := "light", notifications := true, maxFileSize := 10, autoAnalyze := false }

/-- A possibly partial settings object, as obtained from `JSON.parse` of the
stored record: any subset of the four fields may be present. -/
structure PartialSettings where
  theme : Option String := none
  notifications : Option Bool := none
  maxFileSize : Option Nat := none
  autoAnalyze : Option Bool := none
deriving DecidableEq, Repr

/-- One localStorage slot: missing, present but failing `JSON.parse`
(deserialization throws), or successfully parsed to a value of type `α`. -/
inductive StoredRecord (α : Type) where
  | absent : StoredRecord α
  | corrupt : StoredRecord α
  | val : α → StoredRecord α
deriving DecidableEq, Repr

/-- The JS object spread `{ ...this.settings, ...JSON.parse(settings) }`:
fields present in the parsed record override the current ones. -/
def mergeSettings (cur : Settings) (p : PartialSettings) : Settings :=
  { theme := p.theme.getD cur.theme
    notifications := p.notifications.getD cur.notifications
    maxFileSize := p.maxFileSize.getD cur.maxFileSize
    autoAnalyze := p.autoAnalyze.getD cur.autoAnalyze }

/-- `loadSettings()` (script.js lines 274-283): reads the
`billboardAI_settings` record; on a successful parse it spreads the parsed
fields over the current settings; when `JSON.parse` throws, the `catch`
only logs a warning — the record is left in the store untouched and the
current (default) settings are kept.  Returns the new in-memory settings
together with the store slot after the call. -/
def loadSettings (stored : StoredRecord PartialSettings) (cur : Settings) :
    Settings × StoredRecord PartialSettings :=
  match stored with
  | StoredRecord.absent => (cur, stored)
  | StoredRecord.corrupt => (cur, stored)
  | StoredRecord.val p => (mergeSettings cur p, stored)

/-! ## Validation -/

/-- The file handles handed over by the file picker / drag-drop surface;
only the fields `validateFiles` inspects are modelled. -/
structure JsFile where
  name : String
  type : String
  size : Nat
deriving DecidableEq, Repr

/-- `allowedTypes` from `validateFiles` (script.js line 498). -/
def allowedTypes : List String :=
  ["image/jpeg", "image/jpg", "image/png", "image/gif", "image/webp"]

/-- `Array.prototype.includes` on a list of strings. -/
def includesStr (l : List String) (s : String) : Bool :=
  match l with
  | [] => false
  | x :: t => s == x || includesStr t s

/-- The reason attached to a rejection toast inside `validateFiles`:
`Unsupported file type` or `File too large (max .. MB)`. -/
inductive RejectReason where
  | unsupportedType
  | tooLarge
deriving DecidableEq, Repr

/-- `validateFiles(files)` (script.js lines 495-515): walks the batch in
order; a file whose MIME type is not in `allowedTypes` is rejected with an
`Unsupported file type` toast, otherwise a file whose size exceeds
`maxFileSize * 1024 * 1024` bytes is rejected with a `File too large`
toast, otherwise it is pushed onto `validFiles`.  Returns the accepted
files in order together with the rejection toasts in order. -/
def validateFiles (files : List JsFile) (maxFileSizeMB : Nat) :
    List JsFile × List (JsFile × RejectReason) :=
  match files with
  | [] => ([], [])
  | f :: fs =>
    let rest := validateFiles fs maxFileSizeMB
    if !(includesStr allowedTypes f.type) then
      (rest.1, (f, RejectReason.unsupportedType) :: rest.2)
    else if f.size > maxFileSizeMB * 1024 * 1024 then
      (rest.1, (f, RejectReason.tooLarge) :: rest.2)
    else
      (f :: rest.1, rest.2)

/-- The abstract image-format set named by the design: JPEG, PNG, GIF,
WEBP.  `image/jpeg` and the non-standard alias `image/jpg` both denote
the JPEG format. -/
inductive ImageFormat where
  | jpeg | png | gif | webp
deriving DecidableEq, Repr

/-- Classify a MIME string into the abstract format set. -/
def mimeFormat : String → Option ImageFormat
  | "image/jpeg" => some ImageFormat.jpeg
  | "image/jpg" => some ImageFormat.jpeg
  | "image/png" => some ImageFormat.png
  | "image/gif" => some ImageFormat.gif
  | "image/webp" => some ImageFormat.webp
  | _ => none

theorem includesStr_allowedTypes_format {t : String}
    (h : includesStr allowedTypes t = true) : (mimeFormat t).isSome = true := by
  simp only [allowedTypes, includesStr, Bool.or_eq_true, beq_iff_eq] at h
  rcases h with h | h | h | h | h | h
  · subst h; rfl
  · subst h; rfl
  · subst h; rfl
  · subst h; rfl
  · subst h; rfl
  · cases h

/-! ## The analysis lifecycle state machine -/

/-- The `status` field of an image entry. -/
inductive Status where
  | pending | analyzing | authorized | unauthorized | error
deriving DecidableEq, Repr

/-- An Image Entry as built by `addImageToGallery` (script.js lines
520-535): `confidence` and `analyzedAt` are absent until an analysis
completes.  A confidence `(q*20+80).toFixed(1)` is held as tenths of a
percent (the integer `c` stands for the rendered string `c/10 "." c%10`). -/
structure ImageData where
  id : String
  name : String
  url : String
  status : Status
  uploadTime : String
  size : Nat
  confidence : Option Int := none
  analyzedAt : Option String := none
deriving DecidableEq, Repr

/-- A History Item, the snapshot built inside `addToHistory`
(script.js lines 727-740). -/
structure HistoryItem where
  id : String
  name : String
  status : Status
  confidence : Option Int
  date : Option String
  size : Nat
deriving DecidableEq, Repr

/-- The mutable state touched by the lifecycle: the insertion-ordered
`uploadedImages` map, the in-memory `analysisHistory`, the set of image
DOM elements currently in the gallery (one per rendered entry, looked up
by `document.getElementById`), and the persisted `billboardAI_history`
record. -/
structure AppState where
  uploadedImages : List (String × ImageData)
  analysisHistory : List HistoryItem
  galleryIds : List String
  storedHistory : Option (List HistoryItem)
deriving DecidableEq, Repr

/-- `Map.prototype.get` on the insertion-ordered association list. -/
def mapGet (m : List (String × ImageData)) (k : String) : Option ImageData :=
  match m with
  | [] => none
  | (k', v) :: t => if k' = k then some v else mapGet t k

/-- In-place mutation of the entry object held under key `k` (the JS code
mutates the object returned by `get`, which keeps its position). -/
def mapSet (m : List (String × ImageData)) (k : String) (v : ImageData) :
    List (String × ImageData) :=
  match m with
  | [] => [(k, v)]
  | (k', v') :: t => if k' = k then (k, v) :: t else (k', v') :: mapSet t k v

/-- `Number.prototype.toFixed(1)` applied to a nonnegative value, with the
result kept as tenths: round to the nearest tenth, halves away from zero. -/
def toFixed10 (x : Rat) : Int := ⌊x * 10 + 1 / 2⌋

/-- The outcome of one run of the `try` block's suspension: either
`performAnalysis` returns and the two `Math.random()` draws are `r`
(verdict) and `q` (confidence), both in `[0,1)`, or the awaited call
throws and control reaches the `catch`. -/
inductive AnalysisOutcome where
  | ok (r : Rat) (q : Rat)
  | fault

/-- `addToHistory(imageData)` (script.js lines 727-740): prepend the
snapshot to `analysisHistory` (`unshift`), then `saveAnalysisHistory()`
writes the whole sequence to the persisted record. -/
def addToHistory (s : AppState) (img : ImageData) : AppState :=
  let historyItem : HistoryItem :=
    { id := img.id, name := img.name, status := img.status,
      confidence := img.confidence, date := img.analyzedAt, size := img.size }
  let newHistory := historyItem :: s.analysisHistory
  { s with analysisHistory := newHistory, storedHistory := some newHistory }

/-- `analyzeImage(imageId)` (script.js lines 600-657) as a state
transition.  Guards: a missing map entry or an entry already `analyzing`
returns immediately; a missing gallery element returns immediately.  On a
surviving call the entry passes through `analyzing` and then, when the
awaited analysis returns, gets verdict `authorized` iff `r > 0.5`,
confidence `(q*20+80).toFixed(1)` and `analyzedAt := now`, and the
snapshot is appended to the history; when the analysis throws, the entry
is left in `error` and no history is written. -/
def analyzeImage (s : AppState) (imageId : String) (now : String)
    (out : AnalysisOutcome) : AppState :=
  match mapGet s.uploadedImages imageId with
  | none => s
  | some imageData =>
    if imageData.status = Status.analyzing then s
    else if imageId ∈ s.galleryIds then
      match out with
      | AnalysisOutcome.ok r q =>
        let result := if 1 / 2 < r then Status.authorized else Status.unauthorized
        let confidence := toFixed10 (q * 20 + 80)
        let imageData' := { imageData with
          status := result, confidence := some confidence, analyzedAt := some now }
        let s' := { s with uploadedImages := mapSet s.uploadedImages imageId imageData' }
        addToHistory s' imageData'
      | AnalysisOutcome.fault =>
        let imageData' := { imageData with status := Status.error }
        { s with uploadedImages := mapSet s.uploadedImages imageId imageData' }
    else s

/-! ## History and statistics aggregators -/

/-- The three numbers `updateStats` (script.js lines 745-762) derives. -/
structure StatsView where
  total : Nat
  authorizedCount : Nat
  unauthorizedCount : Nat
deriving DecidableEq, Repr

/-- `updateStats()`: recomputed in full from `analysisHistory` on every
call; no incremental counters. -/
def updateStats (history : List HistoryItem) : StatsView :=
  { total := history.length
    authorizedCount := (history.filter fun item => item.status == Status.authorized).length
    unauthorizedCount := (history.filter fun item => item.status == Status.unauthorized).length }

/-- `String.prototype.trim` on the character list: strip leading and
trailing whitespace. -/
def trimL (s : List Char) : List Char :=
  ((s.dropWhile Char.isWhitespace).reverse.dropWhile Char.isWhitespace).reverse

/-- `String.prototype.toLowerCase`, character-wise. -/
def toLowerL (s : List Char) : List Char := s.map Char.toLower

/-- Does the haystack start with the needle. -/
def startsWithL : List Char → List Char → Bool
  | _, [] => true
  | [], _ :: _ => false
  | c :: cs, d :: ds => c == d && startsWithL cs ds

/-- `String.prototype.includes`: does some suffix of the haystack start
with the needle. -/
def containsSub : List Char → List Char → Bool
  | [], needle => needle.isEmpty
  | c :: t, needle => startsWithL (c :: t) needle || containsSub t needle

/-- `filterHistory(searchTerm)` (script.js lines 849-857) restricted to
the sequence it renders: a term that trims to empty re-renders the full
`analysisHistory`; otherwise the table shows the items whose lowercased
name includes the lowercased (untrimmed) term. -/
def filterHistory (history : List HistoryItem) (searchTerm : String) :
    List HistoryItem :=
  if trimL searchTerm.toList = [] then history
  else history.filter fun item =>
    containsSub (toLowerL item.name.toList) (toLowerL searchTerm.toList)

/-! ## CSV export -/

/-- `name.replace(/"/g, '""')`: every double quote becomes two. -/
def dupQuotes : List Char → List Char
  | [] => []
  | c :: t => if c == '"' then '"' :: '"' :: dupQuotes t else c :: dupQuotes t

/-- The literal the `status` field of a history item prints as. -/
def statusStr : Status → String
  | Status.pending => "pending"
  | Status.analyzing => "analyzing"
  | Status.authorized => "authorized"
  | Status.unauthorized => "unauthorized"
  | Status.error => "error"

/-- Rendering of `item.confidence` (held as tenths) in a template string:
the `toFixed(1)` text, or `undefined` when the field was never set. -/
def confStr : Option Int → String
  | none => "undefined"
  | some c => toString (c / 10) ++ "." ++ toString (c % 10)

/-- Rendering of `item.date` in a template string. -/
def dateStr : Option String → String
  | none => "undefined"
  | some d => d

/-- `Array.prototype.join(sep)`. -/
def joinSep (sep : String) : List String → String
  | [] => ""
  | [s] => s
  | s :: rest => s ++ sep ++ joinSep sep rest

/-- The header cells of the export (script.js line 917). -/
def csvHeaders : List String :=
  ["Image Name", "Status", "Confidence (%)", "Date", "File Size (bytes)"]

/-- One data row of the export (script.js lines 920-926): quoted name
with quotes doubled, raw status, raw confidence, quoted date, raw size. -/
def csvRow (item : HistoryItem) : String :=
  joinSep ","
    [ "\"" ++ String.mk (dupQuotes item.name.toList) ++ "\"",
      statusStr item.status,
      confStr item.confidence,
      "\"" ++ dateStr item.date ++ "\"",
      toString item.size ]

/-- `exportToCSV()` (script.js lines 910-947): an empty history only
raises a `No data to export` toast and produces no file (`none`);
otherwise the produced text is the header row followed by one row per
history item, newline separated. -/
def exportToCSV (history : List HistoryItem) : Option String :=
  if history.isEmpty then none
  else some (joinSep "\n" (joinSep "," csvHeaders :: history.map csvRow))

/-! ## Helper lemmas -/

theorem mapGet_mapSet_self (m : List (String × ImageData)) (k : String) (v : ImageData) :
    mapGet (mapSet m k v) k = some v := by
  induction m with
  | nil => simp [mapGet, mapSet]
  | cons p t ih =>
    obtain ⟨k', v'⟩ := p
    by_cases h : k' = k <;> simp [mapGet, mapSet, h, ih]

/-- The rounded confidence of a draw in `[0,1)` lies between 80.0 and
100.0 (tenths: between 800 and 1000). -/
theorem toFixed10_bounds (q : Rat) (h0 : 0 ≤ q) (h1 : q < 1) :
    800 ≤ toFixed10 (q * 20 + 80) ∧ toFixed10 (q * 20 + 80) ≤ 1000 := by
  unfold toFixed10
  constructor
  · exact Int.le_floor.mpr (by push_cast; linarith)
  · have h2 : ((q * 20 + 80) * 10 + 1 / 2 : Rat) < ((1001 : Int) : Rat) := by
      push_cast; linarith
    have h3 := Int.floor_lt.mpr h2
    omega

/-- Shape of a completed `analyzeImage` run: when the entry exists, is not
mid-analysis, its gallery element exists and the awaited analysis returns,
the entry is overwritten with a terminal verdict and its snapshot is
prepended to the (in-memory and persisted) history. -/
theorem analyzeImage_ok_run (s : AppState) (imageId now : String) (r q : Rat)
    (img : ImageData)
    (h1 : mapGet s.uploadedImages imageId = some img)
    (h2 : img.status ≠ Status.analyzing)
    (h3 : imageId ∈ s.galleryIds) :
    ∃ img',
      analyzeImage s imageId now (AnalysisOutcome.ok r q) =
        { uploadedImages := mapSet s.uploadedImages imageId img',
          analysisHistory :=
            ⟨img'.id, img'.name, img'.status, img'.confidence, img'.analyzedAt, img'.size⟩
              :: s.analysisHistory,
          galleryIds := s.galleryIds,
          storedHistory := some
            (⟨img'.id, img'.name, img'.status, img'.confidence, img'.analyzedAt, img'.size⟩
              :: s.analysisHistory) } ∧
      (img'.status = Status.authorized ∨ img'.status = Status.unauthorized) ∧
      img'.confidence = some (toFixed10 (q * 20 + 80)) := by
  refine ⟨{ img with
      status := if 1 / 2 < r then Status.authorized else Status.unauthorized,
      confidence := some (toFixed10 (q * 20 + 80)),
      analyzedAt := some now }, ?_, ?_, rfl⟩
  · unfold analyzeImage addToHistory
    rw [h1]
    simp [h2, h3]
  · by_cases hr : (1 : Rat) / 2 < r
    · rw [if_pos hr]; exact Or.inl rfl
    · rw [if_neg hr]; exact Or.inr rfl

theorem startsWithL_iff (p : List Char) : ∀ l : List Char,
    startsWithL l p = true ↔ ∃ post, l = p ++ post := by
  induction p with
  | nil =>
    intro l
    cases l <;> simp [startsWithL]
  | cons d ds ih =>
    intro l
    cases l with
    | nil => simp [startsWithL]
    | cons c cs =>
      simp only [startsWithL, Bool.and_eq_true, beq_iff_eq, ih, List.cons_append,
        List.cons.injEq]
      constructor
      · rintro ⟨rfl, post, rfl⟩
        exact ⟨post, rfl, rfl⟩
      · rintro ⟨post, rfl, rfl⟩
        exact ⟨rfl, post, rfl⟩

theorem containsSub_iff (needle : List Char) : ∀ l : List Char,
    containsSub l needle = true ↔ ∃ pre post, l = pre ++ needle ++ post := by
  intro l
  induction l with
  | nil =>
    simp only [containsSub, List.isEmpty_iff]
    constructor
    · rintro rfl
      exact ⟨[], [], rfl⟩
    · rintro ⟨pre, post, h⟩
      rcases List.append_eq_nil.mp (List.append_eq_nil.mp h.symm).1 with ⟨-, h2⟩
      exact h2
  | cons c t ih =>
    simp only [containsSub, Bool.or_eq_true, startsWithL_iff, ih]
    constructor
    · rintro (⟨post, h⟩ | ⟨pre, post, h⟩)
      · exact ⟨[], post, by simpa using h⟩
      · exact ⟨c :: pre, post, by simp [h]⟩
    · rintro ⟨pre, post, h⟩
      cases pre with
      | nil =>
        exact Or.inl ⟨post, by simpa using h⟩
      | cons a pre' =>
        rw [List.cons_append, List.cons_append, List.cons.injEq] at h
        exact Or.inr ⟨pre', post, by simpa using h.2⟩

theorem trimL_eq_nil_iff (l : List Char) :
    trimL l = [] ↔ ∀ c ∈ l, c.isWhitespace = true := by
  unfold trimL
  rw [List.reverse_eq_nil_iff, List.dropWhile_eq_nil_iff]
  simp only [List.mem_reverse]
  constructor
  · intro h c hc
    rw [← List.takeWhile_append_dropWhile Char.isWhitespace l] at hc
    rcases List.mem_append.mp hc with h1 | h2
    · exact List.mem_takeWhile_imp h1
    · exact h c h2
  · intro h c hc
    exact h c ((List.dropWhile_sublist Char.isWhitespace).mem hc)

theorem dupQuotes_eq_flatMap (l : List Char) :
    dupQuotes l = l.flatMap fun c => if c == '"' then ['"', '"'] else [c] := by
  induction l with
  | nil => rfl
  | cons c t ih =>
    by_cases h : c = '"' <;> simp [dupQuotes, h, ih]

/-! ## Concrete sample data for witnesses and counterexamples -/

/-- A gallery entry that already completed analysis as `authorized`. -/
def termEntry : ImageData :=
  { id := "img_1", name := "a.png", url := "u", status := Status.authorized,
    uploadTime := "t0", size := 5, confidence := some 900, analyzedAt := some "t1" }

/-- A state holding `termEntry` and its one completed-analysis snapshot. -/
def termState : AppState :=
  { uploadedImages := [("img_1", termEntry)],
    analysisHistory := [⟨"img_1", "a.png", Status.authorized, some 900, some "t1", 5⟩],
    galleryIds := ["img_1"],
    storedHistory := some [⟨"img_1", "a.png", Status.authorized, some 900, some "t1", 5⟩] }

/-- A gallery entry currently mid-analysis. -/
def analyzingEntry : ImageData :=
  { id := "img_2", name := "b.png", url := "u", status := Status.analyzing,
    uploadTime := "t0", size := 3 }

/-- A state holding `analyzingEntry`. -/
def analyzingState : AppState :=
  { uploadedImages := [("img_2", analyzingEntry)], analysisHistory := [],
    galleryIds := ["img_2"], storedHistory := none }

/-- A freshly ingested gallery entry. -/
def pendingEntry : ImageData :=
  { id := "img_3", name := "c.png", url := "u", status := Status.pending,
    uploadTime := "t0", size := 7 }

/-- A state holding `pendingEntry` and an empty history. -/
def pendingState : AppState :=
  { uploadedImages := [("img_3", pendingEntry)], analysisHistory := [],
    galleryIds := ["img_3"], storedHistory := none }

/-- A state with no uploaded entries at all. -/
def emptyState : AppState :=
  { uploadedImages := [], analysisHistory := [], galleryIds := [],
    storedHistory := none }

/-- An authorized history snapshot. -/
def histA : HistoryItem := ⟨"h1", "Billboard One.jpg", Status.authorized, some 900, some "d1", 11⟩

/-- An unauthorized history snapshot. -/
def histU : HistoryItem := ⟨"h2", "Sign Two.png", Status.unauthorized, some 850, some "d2", 22⟩

/-! ## Claims -/

/-- Claim C2, counterexample to the claim as stated: with a corrupt
settings record in the store, `loadSettings` does keep the default
settings, but the corrupt record is NOT removed from the store — it is
still there (not absent) after the call, contradicting "the corrupt
record is removed from the store". -/
theorem c2_corrupt_record_counterexample :
    (loadSettings StoredRecord.corrupt defaultSettings).1 = defaultSettings ∧
    (loadSettings StoredRecord.corrupt defaultSettings).2 = StoredRecord.corrupt ∧
    ¬ (loadSettings StoredRecord.corrupt defaultSettings).2 = StoredRecord.absent := by
  refine ⟨rfl, rfl, ?_⟩
  intro h
  cases h

/-- Claim C2 (amended): for every stored settings record that fails to
deserialize, loading settings keeps the current settings — at startup the
defaults {theme:light, notifications:true, maxFileSizeMB:10,
autoAnalyze:false} — but the corrupt record stays in the store untouched
(the `catch` in `loadSettings` only logs; no removal happens). -/
theorem c2_corrupt_settings_fallback :
    (∀ cur, loadSettings StoredRecord.corrupt cur = (cur, StoredRecord.corrupt)) ∧
    loadSettings StoredRecord.corrupt defaultSettings =
      (defaultSettings, StoredRecord.corrupt) ∧
    defaultSettings =
      { theme := "light", notifications := true, maxFileSize := 10,
        autoAnalyze := false } :=
  ⟨fun _ => rfl, rfl, rfl⟩

/-- Claim C5: invoking `analyzeImage` on an entry whose status is
`analyzing` is a no-op — the whole application state (entries, in-memory
history, gallery, persisted record) is returned unchanged, so no duplicate
history item is appended. -/
theorem c5_analyzing_noop (s : AppState) (imageId now : String)
    (out : AnalysisOutcome) (img : ImageData)
    (h1 : mapGet s.uploadedImages imageId = some img)
    (h2 : img.status = Status.analyzing) :
    analyzeImage s imageId now out = s := by
  unfold analyzeImage
  rw [h1]
  simp [h2]

/-- Witness for C5 at a concrete state. -/
theorem c5_analyzing_noop_witness :
    analyzeImage analyzingState "img_2" "t1" AnalysisOutcome.fault = analyzingState :=
  c5_analyzing_noop analyzingState "img_2" "t1" AnalysisOutcome.fault
    analyzingEntry (by decide) (by decide)

/-- Claim C10: invoking `analyzeImage` with an id that is not a key of
`uploadedImages` returns with the application state — entry collection,
analysis history, and persisted records — unmodified. -/
theorem c10_missing_id_frame (s : AppState) (imageId now : String)
    (out : AnalysisOutcome)
    (h : mapGet s.uploadedImages imageId = none) :
    analyzeImage s imageId now out = s := by
  unfold analyzeImage
  rw [h]

/-- Witness for C10 at a concrete state. -/
theorem c10_missing_id_frame_witness :
    analyzeImage emptyState "img_9" "t" AnalysisOutcome.fault = emptyState :=
  c10_missing_id_frame emptyState "img_9" "t" AnalysisOutcome.fault rfl

/-- Claim C1, counterexample to the claim as stated: `analyzeImage` only
guards against the `analyzing` status, so invoking it on an entry whose
status is `authorized` does perform a further transition.  Concretely, on
`termState` (entry `img_1` authorized) an invocation whose awaited
analysis throws moves the entry to `error`, so the state is not returned
unchanged — authorized is not terminal for the operation. -/
theorem c1_terminal_counterexample :
    termEntry.status = Status.authorized ∧
    (mapGet (analyzeImage termState "img_1" "t2" AnalysisOutcome.fault).uploadedImages
        "img_1").map ImageData.status = some Status.error ∧
    ¬ analyzeImage termState "img_1" "t2" AnalysisOutcome.fault = termState := by
  refine ⟨rfl, by decide, by decide⟩

/-- Claim C1 (amended): only `analyzing` is guarded.  Invoking analyze on
an entry whose status is `authorized`, `unauthorized` or `error` (still
present, with its gallery element) re-runs the analysis: when the awaited
call returns, the entry transitions again to `authorized` or
`unauthorized` and one additional history item is appended (and on a
fault it transitions to `error`).  No transition back to `pending`
exists, but these states are not terminal for the operation. -/
theorem c1_reanalysis_from_terminal (s : AppState) (imageId now : String)
    (r q : Rat) (img : ImageData)
    (h1 : mapGet s.uploadedImages imageId = some img)
    (h2 : img.status = Status.authorized ∨ img.status = Status.unauthorized ∨
          img.status = Status.error)
    (h3 : imageId ∈ s.galleryIds) :
    (analyzeImage s imageId now (AnalysisOutcome.ok r q)).analysisHistory.length
        = s.analysisHistory.length + 1 ∧
    ∃ img',
      mapGet (analyzeImage s imageId now (AnalysisOutcome.ok r q)).uploadedImages
          imageId = some img' ∧
      (img'.status = Status.authorized ∨ img'.status = Status.unauthorized) := by
  have h2' : img.status ≠ Status.analyzing := by
    rcases h2 with h | h | h <;> simp [h]
  obtain ⟨img', heq, hst, -⟩ := analyzeImage_ok_run s imageId now r q img h1 h2' h3
  refine ⟨by rw [heq]; simp, img', ?_, hst⟩
  rw [heq]
  exact mapGet_mapSet_self s.uploadedImages imageId img'

/-- Witness for the amended C1 at a concrete state: re-invoking analyze on
the already-authorized `img_1` appends a second history item. -/
theorem c1_reanalysis_from_terminal_witness :
    (analyzeImage termState "img_1" "t2" (AnalysisOutcome.ok 0 0)).analysisHistory.length
        = termState.analysisHistory.length + 1 ∧
    ∃ img',
      mapGet (analyzeImage termState "img_1" "t2" (AnalysisOutcome.ok 0 0)).uploadedImages
          "img_1" = some img' ∧
      (img'.status = Status.authorized ∨ img'.status = Status.unauthorized) :=
  c1_reanalysis_from_terminal termState "img_1" "t2" 0 0 termEntry
    (by decide) (Or.inl rfl) (by decide)

/-- Claim C9: a completed analysis call on a pending entry (present, with
its gallery element, random draws in `[0,1)`) leaves the entry in
`authorized` or `unauthorized`, attaches a confidence of 80.0–100.0
percent (800 to 1000 tenths), and grows the history by exactly one
item. -/
theorem c9_analysis_success_range (s : AppState) (imageId now : String)
    (r q : Rat) (img : ImageData)
    (h1 : mapGet s.uploadedImages imageId = some img)
    (h2 : img.status = Status.pending)
    (h3 : imageId ∈ s.galleryIds)
    (hq0 : 0 ≤ q) (hq1 : q < 1) :
    ∃ img',
      mapGet (analyzeImage s imageId now (AnalysisOutcome.ok r q)).uploadedImages
          imageId = some img' ∧
      (img'.status = Status.authorized ∨ img'.status = Status.unauthorized) ∧
      (∃ c, img'.confidence = some c ∧ 800 ≤ c ∧ c ≤ 1000) ∧
      (analyzeImage s imageId now (AnalysisOutcome.ok r q)).analysisHistory.length
        = s.analysisHistory.length + 1 := by
  obtain ⟨img', heq, hst, hconf⟩ :=
    analyzeImage_ok_run s imageId now r q img h1 (by simp [h2]) h3
  obtain ⟨hb1, hb2⟩ := toFixed10_bounds q hq0 hq1
  refine ⟨img', ?_, hst, ⟨toFixed10 (q * 20 + 80), hconf, hb1, hb2⟩, by rw [heq]; simp⟩
  rw [heq]
  exact mapGet_mapSet_self s.uploadedImages imageId img'

/-- Witness for C9 at a concrete state with both draws equal to 0. -/
theorem c9_analysis_success_range_witness :
    ∃ img',
      mapGet (analyzeImage pendingState "img_3" "t1" (AnalysisOutcome.ok 0 0)).uploadedImages
          "img_3" = some img' ∧
      (img'.status = Status.authorized ∨ img'.status = Status.unauthorized) ∧
      (∃ c, img'.confidence = some c ∧ 800 ≤ c ∧ c ≤ 1000) ∧
      (analyzeImage pendingState "img_3" "t1" (AnalysisOutcome.ok 0 0)).analysisHistory.length
        = pendingState.analysisHistory.length + 1 :=
  c9_analysis_success_range pendingState "img_3" "t1" 0 0 pendingEntry
    (by decide) rfl (by decide) (le_refl 0) zero_lt_one

/-- Claim C3: `validateFiles` accepts only files whose MIME type is in
the allow-list (each accepted type is one of the JPEG/PNG/GIF/WEBP
formats), and every file of the batch whose MIME type is outside the
allow-list is rejected with the unsupported-type reason. -/
theorem c3_validate_allowlist (files : List JsFile) (m : Nat) :
    (∀ f ∈ (validateFiles files m).1,
      includesStr allowedTypes f.type = true ∧ (mimeFormat f.type).isSome = true) ∧
    (∀ f ∈ files, includesStr allowedTypes f.type = false →
      (f, RejectReason.unsupportedType) ∈ (validateFiles files m).2) := by
  induction files with
  | nil => exact ⟨by simp [validateFiles], by simp⟩
  | cons f fs ih =>
    constructor
    · intro g hg
      by_cases ht : includesStr allowedTypes f.type = true
      · by_cases hs : f.size > m * 1024 * 1024
        · simp only [validateFiles, ht, hs, Bool.not_true, if_neg, if_pos,
            Bool.false_eq_true, ite_false, ite_true] at hg
          exact ih.1 g hg
        · simp only [validateFiles, ht, hs, Bool.not_true, Bool.false_eq_true,
            ite_false, ite_true, List.mem_cons] at hg
          rcases hg with rfl | hg
          · exact ⟨ht, includesStr_allowedTypes_format ht⟩
          · exact ih.1 g hg
      · have ht' : includesStr allowedTypes f.type = false := by
          revert ht; cases includesStr allowedTypes f.type <;> simp
        simp only [validateFiles, ht', Bool.not_false, ite_true] at hg
        exact ih.1 g hg
    · intro g hg hbad
      rcases List.mem_cons.mp hg with rfl | hg'
      · simp [validateFiles, hbad]
      · by_cases ht : includesStr allowedTypes f.type = true
        · by_cases hs : f.size > m * 1024 * 1024 <;>
            simp only [validateFiles, ht, hs, Bool.not_true, Bool.false_eq_true,
              ite_false, ite_true, List.mem_cons] <;>
            first
              | exact Or.inr (ih.2 g hg' hbad)
              | exact ih.2 g hg' hbad
        · have ht' : includesStr allowedTypes f.type = false := by
            revert ht; cases includesStr allowedTypes f.type <;> simp
          simp only [validateFiles, ht', Bool.not_false, ite_true, List.mem_cons]
          exact Or.inr (ih.2 g hg' hbad)

/-- Witness for C3: a PNG is accepted (with its format classified), a
text file is rejected as unsupported. -/
theorem c3_validate_allowlist_witness :
    (includesStr allowedTypes (JsFile.mk "a.png" "image/png" 5).type = true ∧
      (mimeFormat (JsFile.mk "a.png" "image/png" 5).type).isSome = true) ∧
    (JsFile.mk "n.txt" "text/plain" 5, RejectReason.unsupportedType) ∈
      (validateFiles [JsFile.mk "a.png" "image/png" 5,
        JsFile.mk "n.txt" "text/plain" 5] 10).2 :=
  ⟨(c3_validate_allowlist
      [JsFile.mk "a.png" "image/png" 5, JsFile.mk "n.txt" "text/plain" 5] 10).1
      (JsFile.mk "a.png" "image/png" 5) (by decide),
   (c3_validate_allowlist
      [JsFile.mk "a.png" "image/png" 5, JsFile.mk "n.txt" "text/plain" 5] 10).2
      (JsFile.mk "n.txt" "text/plain" 5) (by decide) (by decide)⟩

/-- Claim C6: for every `maxFileSize` setting, a file of an allowed type
whose size is exactly `maxFileSize*1024*1024` bytes is accepted, and one
of size `maxFileSize*1024*1024 + 1` is rejected with the too-large
reason. -/
theorem c6_size_boundary (m : Nat) (nm t : String)
    (h : includesStr allowedTypes t = true) :
    validateFiles [JsFile.mk nm t (m * 1024 * 1024)] m =
      ([JsFile.mk nm t (m * 1024 * 1024)], []) ∧
    validateFiles [JsFile.mk nm t (m * 1024 * 1024 + 1)] m =
      ([], [(JsFile.mk nm t (m * 1024 * 1024 + 1), RejectReason.tooLarge)]) := by
  constructor <;> simp [validateFiles, h]

/-- Witness for C6 at `maxFileSize = 10` and type `image/png`. -/
theorem c6_size_boundary_witness :
    validateFiles [JsFile.mk "b.png" "image/png" (10 * 1024 * 1024)] 10 =
      ([JsFile.mk "b.png" "image/png" (10 * 1024 * 1024)], []) ∧
    validateFiles [JsFile.mk "b.png" "image/png" (10 * 1024 * 1024 + 1)] 10 =
      ([], [(JsFile.mk "b.png" "image/png" (10 * 1024 * 1024 + 1),
        RejectReason.tooLarge)]) :=
  c6_size_boundary 10 "b.png" "image/png" (by decide)

/-- Claim C7: over a history of `N` items of which `A` are authorized and
`U` unauthorized, `updateStats` reports `{total := N, authorizedCount :=
A, unauthorizedCount := U}`, and the result is invariant under any
reordering (permutation) of the sequence. -/
theorem c7_stats_counts (h h' : List HistoryItem) (N A U : Nat)
    (hperm : h.Perm h')
    (hN : h.length = N)
    (hA : (h.filter fun item => item.status == Status.authorized).length = A)
    (hU : (h.filter fun item => item.status == Status.unauthorized).length = U) :
    updateStats h' =
      { total := N, authorizedCount := A, unauthorizedCount := U } := by
  unfold updateStats
  rw [← hperm.length_eq,
    ← (hperm.filter (fun item => item.status == Status.authorized)).length_eq,
    ← (hperm.filter (fun item => item.status == Status.unauthorized)).length_eq,
    hN, hA, hU]

/-- Witness for C7 on a two-element history and its swap. -/
theorem c7_stats_counts_witness :
    updateStats [histU, histA] =
      { total := 2, authorizedCount := 1, unauthorizedCount := 1 } :=
  c7_stats_counts [histA, histU] [histU, histA] 2 1 1
    (by decide) (by decide) (by decide) (by decide)

/-- Claim C8: a search term that is empty or whitespace-only leaves the
rendered history sequence unchanged; for any other term the result is
exactly the items whose name contains the term as a case-insensitive
substring (the lowercased term occurs inside the lowercased name). -/
theorem c8_search_filter (history : List HistoryItem) (term : String) :
    ((∀ c ∈ term.toList, c.isWhitespace = true) →
      filterHistory history term = history) ∧
    ((¬ ∀ c ∈ term.toList, c.isWhitespace = true) →
      ∀ item, item ∈ filterHistory history term ↔
        item ∈ history ∧ ∃ pre post,
          toLowerL item.name.toList = pre ++ toLowerL term.toList ++ post) := by
  constructor
  · intro hw
    unfold filterHistory
    rw [if_pos ((trimL_eq_nil_iff term.toList).mpr hw)]
  · intro hnw item
    unfold filterHistory
    rw [if_neg (fun e => hnw ((trimL_eq_nil_iff term.toList).mp e))]
    rw [List.mem_filter, containsSub_iff]

/-- Witness for C8: a whitespace-only term returns the sample history
unchanged, and a one-letter term matches by case-insensitive substring. -/
theorem c8_search_filter_witness :
    filterHistory [histA, histU] " " = [histA, histU] ∧
    (histA ∈ filterHistory [histA, histU] "BILLBOARD" ↔
      histA ∈ [histA, histU] ∧ ∃ pre post,
        toLowerL histA.name.toList = pre ++ toLowerL "BILLBOARD".toList ++ post) :=
  ⟨(c8_search_filter [histA, histU] " ").1 (by decide),
   (c8_search_filter [histA, histU] "BILLBOARD").2 (by decide) histA⟩

/-- Claim C4: on a non-empty history, the export is the fixed header row
followed by one row per item with the columns in the fixed order name,
status, confidence percent, date, size in bytes; the name field is quoted
with every embedded double quote doubled, while the status, confidence,
date and size fields carry their strings unaltered (the date merely
wrapped in quotes, no doubling). -/
theorem c4_export_csv_format (history : List HistoryItem) (hne : history ≠ []) :
    exportToCSV history = some (joinSep "\n"
      (joinSep "," csvHeaders :: history.map (fun item => joinSep ","
        [ "\"" ++ String.mk (item.name.toList.flatMap
              fun c => if c == '"' then ['"', '"'] else [c]) ++ "\"",
          statusStr item.status,
          confStr item.confidence,
          "\"" ++ dateStr item.date ++ "\"",
          toString item.size ]))) := by
  have h1 : history.isEmpty = false := by simpa [List.isEmpty_iff] using hne
  have hrow : ∀ item : HistoryItem, csvRow item = joinSep ","
      [ "\"" ++ String.mk (item.name.toList.flatMap
            fun c => if c == '"' then ['"', '"'] else [c]) ++ "\"",
        statusStr item.status,
        confStr item.confidence,
        "\"" ++ dateStr item.date ++ "\"",
        toString item.size ] := by
    intro item
    unfold csvRow
    rw [dupQuotes_eq_flatMap]
  unfold exportToCSV
  rw [h1, funext hrow]
  simp

/-- Witness for C4 on the spec's scenario item `Ad "Big" Sign.jpg`: the
name field renders as `"Ad ""Big"" Sign.jpg"` and the remaining fields
are raw. -/
theorem c4_export_csv_format_witness :
    exportToCSV [⟨"h9", "Ad \"Big\" Sign.jpg", Status.authorized, some 923,
        some "2024-01-01T00:00:00.000Z", 1000⟩] =
      some ("Image Name,Status,Confidence (%),Date,File Size (bytes)\n\"Ad \"\"Big\"\" Sign.jpg\",authorized,92.3,\"2024-01-01T00:00:00.000Z\",1000") := by
  rw [c4_export_csv_format
    [⟨"h9", "Ad \"Big\" Sign.jpg", Status.authorized, some 923,
      some "2024-01-01T00:00:00.000Z", 1000⟩] (by decide)]
  rfl
